import Mathlib

/-
Shallow embedding of `tooling/create-tauri-app/src/recipes/vanilla.ts`
(the `vanillajs` recipe of create-tauri-app) and proofs of the spec's
claims about it.

Modelling conventions:
* A project configuration is a finite-domain JS object; we embed it as a
  total map `String → Option String` (absent key = `none`).  All values
  relevant to this recipe are strings.
* JS object spread `{...cfg, k1: v1, ...}` becomes a function that returns
  the overriding value on the overridden keys and falls through to `cfg`
  elsewhere.
* Template-literal interpolation of a possibly-absent property follows JS:
  an absent (`undefined`) property prints as "undefined".
* `path.join` is embedded as separator concatenation; the claims only use
  it on plain segments, where node's `join` behaves exactly this way.
* The external collaborator `scaffe.generate` (an npm package, not part of
  this repository) is a parameter of `preInit`: a function that either
  succeeds or fails with an error value, mirroring a JS promise that may
  reject.  `preInit`'s own behaviour — which arguments it passes and what
  it does on failure — is translated from the source.
* `console.log` output is collected as the returned string(s); a hook that
  cannot raise has a return type with no error channel, and `postInit` is
  additionally wrapped in `Except` to record that no exception escapes.
-/

namespace Vanilla

/-- A project configuration: a mapping from string keys to string values,
with `none` for absent keys. -/
def Config : Type := String → Option String

/-- JS template-literal interpolation of a possibly-absent string property:
a present string interpolates as itself, an absent (`undefined`) property
interpolates as the text "undefined". -/
def interp : Option String → String
  | some s => s
  | none => "undefined"

/-- The `appName` property of a configuration as it would appear inside a
JS template literal (`${cfg.appName}`). -/
def appNameStr (cfg : Config) : String := interp (cfg "appName")

/-- `vanillajs.configUpdate` (vanilla.ts lines 13–21):
`({ cfg, packageManager }) => ({ ...cfg, distDir: "../dist",
devPath: "../dist", beforeDevCommand: `${pm === "yarn" ? "yarn" : "npm run"} start`,
beforeBuildCommand: `${pm === "yarn" ? "yarn" : "npm run"} build` })`.
Spread semantics: the four listed keys are overridden, every other key
falls through to the input configuration. -/
def configUpdate (cfg : Config) (packageManager : String) : Config :=
  fun k =>
    if k = "distDir" then some "../dist"
    else if k = "devPath" then some "../dist"
    else if k = "beforeDevCommand" then
      some ((if packageManager = "yarn" then "yarn" else "npm run") ++ " start")
    else if k = "beforeBuildCommand" then
      some ((if packageManager = "yarn" then "yarn" else "npm run") ++ " build")
    else cfg k

/-- Node's `path.join(a, b)` on plain path segments: `a ++ "/" ++ b`. -/
def pathJoin (a b : String) : String := a ++ "/" ++ b

/-- The `variables` object passed to `scaffe.generate`:
`{ name: appName }`. -/
structure Variables where
  name : String
  deriving DecidableEq

/-- The options object passed to `scaffe.generate`:
`{ overwrite: true, variables }`. -/
structure GenOpts where
  overwrite : Bool
  vars : Variables
  deriving DecidableEq

/-- The type of the external `scaffe.generate(templateDir, targetDir, opts)`
call: it may succeed (promise resolves) or fail with an error value
(promise rejects). -/
def Generate : Type := String → String → GenOpts → Except String Unit

/-- `vanillajs.preInit` (vanilla.ts lines 24–39), parameterised by the
external `scaffe.generate` and by node's `__dirname`.  The source reads
`appName` from `cfg`, builds `templateDir = join(__dirname,
"../src/templates/vanilla")`, calls
`scaffe.generate(templateDir, join(cwd, appName), { overwrite: true,
variables })` inside `try { ... } catch (err) { console.log(err) }`, and
returns.  The returned list is the sequence of `console.log` lines; the
return type has no error channel because the catch is exhaustive. -/
def preInit (generate : Generate) (dirname cwd : String) (cfg : Config) :
    List String :=
  let appName := appNameStr cfg
  let templateDir := pathJoin dirname "../src/templates/vanilla"
  let vs : Variables := { name := appName }
  match generate templateDir (pathJoin cwd appName)
      { overwrite := true, vars := vs } with
  | Except.ok _ => []
  | Except.error err => [err]

/-- The local `setApp` constant of `vanillajs.postInit` (vanilla.ts lines
41–47): the script-registration block for `"npm"`, the empty string
otherwise. -/
def setApp (packageManager : String) : String :=
  if packageManager = "npm" then
    "\nset tauri script once\n  $ npm set-script tauri tauri\n    "
  else ""

/-- The single string `vanillajs.postInit` passes to `console.log`
(vanilla.ts lines 49–60), built from the template literal verbatim. -/
def postInitOutput (cfg : Config) (packageManager : String) : String :=
  "\nchange directory:\n  $ cd " ++ appNameStr cfg ++ "\n"
    ++ setApp packageManager
    ++ "\ninstall dependencies:\n  $ " ++ packageManager ++ " install"
    ++ "\n\nrun the app:\n  $ "
    ++ (if packageManager = "yarn" then "yarn" else "npm run")
    ++ " tauri "
    ++ (if packageManager = "npm" then "-- " else "")
    ++ "dev\n            "

/-- `vanillajs.postInit` as a fallible JS computation: its body is string
building plus one `console.log`, none of which can throw, so the
embedding never takes the error branch.  The payload is the list of lines
written to standard output. -/
def postInit (cfg : Config) (packageManager : String) :
    Except String (List String) :=
  Except.ok [postInitOutput cfg packageManager]

/-- A sample configuration used as a concrete input in witnesses. -/
def sampleCfg : Config :=
  fun k =>
    if k = "appName" then some "my-app"
    else if k = "windowTitle" then some "My App"
    else none

/-- A concrete `scaffe.generate` stand-in that always rejects, used to
witness the error-handling theorems. -/
def failGen : Generate := fun _ _ _ => Except.error "ENOENT"

/-- A concrete `scaffe.generate` stand-in that rejects with its target
directory as the error value. -/
def reportGen : Generate := fun _ target _ => Except.error target

/-- A concrete `scaffe.generate` stand-in that agrees with `reportGen`
only at the target directory `"/tmp/x/my-app"` and succeeds everywhere
else. -/
def reportAtTargetGen : Generate := fun _ target _ =>
  if target = "/tmp/x/my-app" then Except.error target else Except.ok ()

/-- C1: for every input configuration, when the package manager is
`"yarn"`, `configUpdate` returns a configuration whose
`beforeDevCommand` is `"yarn start"` and `beforeBuildCommand` is
`"yarn build"`; when it is `"npm"`, they are `"npm run start"` and
`"npm run build"`. -/
theorem configUpdate_yarn_npm_commands (cfg : Config) :
    configUpdate cfg "yarn" "beforeDevCommand" = some "yarn start"
    ∧ configUpdate cfg "yarn" "beforeBuildCommand" = some "yarn build"
    ∧ configUpdate cfg "npm" "beforeDevCommand" = some "npm run start"
    ∧ configUpdate cfg "npm" "beforeBuildCommand" = some "npm run build" := by
  refine ⟨?_, ?_, ?_, ?_⟩ <;> rfl

/-- C2: for every input configuration, package manager, and key `k` not
in {distDir, devPath, beforeDevCommand, beforeBuildCommand}, the
configuration returned by `configUpdate` maps `k` to exactly the value
the input maps it to (non-destructive merge). -/
theorem configUpdate_frame (cfg : Config) (pm k : String)
    (h1 : k ≠ "distDir") (h2 : k ≠ "devPath")
    (h3 : k ≠ "beforeDevCommand") (h4 : k ≠ "beforeBuildCommand") :
    configUpdate cfg pm k = cfg k := by
  simp [configUpdate, h1, h2, h3, h4]

/-- Witness for C2 at a concrete configuration and untouched key. -/
theorem configUpdate_frame_witness :
    configUpdate sampleCfg "npm" "windowTitle" = sampleCfg "windowTitle" :=
  configUpdate_frame sampleCfg "npm" "windowTitle"
    (by decide) (by decide) (by decide) (by decide)

/-- C3: applying `configUpdate` twice with the same package manager
equals applying it once. -/
theorem configUpdate_idempotent (cfg : Config) (pm : String) :
    configUpdate (configUpdate cfg pm) pm = configUpdate cfg pm := by
  funext k
  simp only [configUpdate]
  split_ifs <;> rfl

/-- C4: `configUpdate` is deterministic: two invocations with
structurally identical input configuration and package manager return
structurally identical configurations. -/
theorem configUpdate_deterministic (c1 c2 : Config) (p1 p2 : String)
    (hc : c1 = c2) (hp : p1 = p2) :
    configUpdate c1 p1 = configUpdate c2 p2 := by
  rw [hc, hp]

/-- Witness for C4 at a concrete configuration and package manager. -/
theorem configUpdate_deterministic_witness :
    configUpdate sampleCfg "yarn" = configUpdate sampleCfg "yarn" :=
  configUpdate_deterministic sampleCfg sampleCfg "yarn" "yarn" rfl rfl

/-- C9: for every input configuration and package manager, the
configuration returned by `configUpdate` has `distDir = "../dist"` and
`devPath = "../dist"`: the two overrides are unconditional constants. -/
theorem configUpdate_dist_constants (cfg : Config) (pm : String) :
    configUpdate cfg pm "distDir" = some "../dist"
    ∧ configUpdate cfg pm "devPath" = some "../dist" :=
  ⟨rfl, rfl⟩

/-- C5: the text `postInit` writes to standard output is, in order, a
directory-change step, then an optional script-registration block `b`
that is nonempty exactly when the package manager is `"npm"` (and in
particular empty for `"yarn"`), then a dependency-install step, then a
run step. -/
theorem postInit_step_order (cfg : Config) (pm : String) :
    ∃ b : String,
      postInitOutput cfg pm =
        "\nchange directory:\n  $ cd " ++ appNameStr cfg ++ "\n"
          ++ b
          ++ "\ninstall dependencies:\n  $ " ++ pm ++ " install"
          ++ "\n\nrun the app:\n  $ "
          ++ (if pm = "yarn" then "yarn" else "npm run")
          ++ " tauri "
          ++ (if pm = "npm" then "-- " else "")
          ++ "dev\n            "
      ∧ (pm = "npm" →
          b = "\nset tauri script once\n  $ npm set-script tauri tauri\n    ")
      ∧ (pm ≠ "npm" → b = "") := by
  refine ⟨setApp pm, rfl, ?_, ?_⟩
  · intro h
    simp [setApp, h]
  · intro h
    simp [setApp, h]

/-- C6: if the template-generation call inside `preInit` fails with an
error, `preInit` catches it, logs exactly that error, and returns
normally (its return type has no error channel, so nothing propagates
to the caller). -/
theorem preInit_catches_generate_error (generate : Generate)
    (dirname cwd : String) (cfg : Config) (err : String)
    (h : generate (pathJoin dirname "../src/templates/vanilla")
        (pathJoin cwd (appNameStr cfg))
        { overwrite := true, vars := { name := appNameStr cfg } }
        = Except.error err) :
    preInit generate dirname cwd cfg = [err] := by
  simp only [preInit]
  rw [h]

/-- Witness for C6: a generator that always rejects is caught and its
error logged. -/
theorem preInit_catches_generate_error_witness :
    preInit failGen "/lib/cta" "/tmp/x" sampleCfg = ["ENOENT"] :=
  preInit_catches_generate_error failGen "/lib/cta" "/tmp/x" sampleCfg
    "ENOENT" rfl

/-- C7: `preInit` invokes template generation with target directory
exactly `join cwd appName`: its result depends on the generator only
through its value at that target (and at the fixed template directory
and options), and on the claim's concrete inputs the target is
`"/tmp/x/my-app"`. -/
theorem preInit_target_dir (g g' : Generate) (dirname cwd : String)
    (cfg : Config)
    (h : g (pathJoin dirname "../src/templates/vanilla")
        (pathJoin cwd (appNameStr cfg))
        { overwrite := true, vars := { name := appNameStr cfg } }
        = g' (pathJoin dirname "../src/templates/vanilla")
        (pathJoin cwd (appNameStr cfg))
        { overwrite := true, vars := { name := appNameStr cfg } }) :
    preInit g dirname cwd cfg = preInit g' dirname cwd cfg
    ∧ pathJoin "/tmp/x" "my-app" = "/tmp/x/my-app" := by
  constructor
  · simp only [preInit]
    rw [h]
  · rfl

/-- Witness for C7: two generators that agree only at the target
directory `"/tmp/x/my-app"` make `preInit` behave identically on
`cwd = "/tmp/x"`, `appName = "my-app"`. -/
theorem preInit_target_dir_witness :
    preInit reportGen "/lib/cta" "/tmp/x" sampleCfg
      = preInit reportAtTargetGen "/lib/cta" "/tmp/x" sampleCfg
    ∧ pathJoin "/tmp/x" "my-app" = "/tmp/x/my-app" :=
  preInit_target_dir reportGen reportAtTargetGen "/lib/cta" "/tmp/x"
    sampleCfg rfl

/-- C8: `postInit` never throws: for every configuration and package
manager it completes normally, never with an error. -/
theorem postInit_never_throws (cfg : Config) (pm : String) :
    ∀ e : String, postInit cfg pm ≠ Except.error e := by
  intro e
  simp [postInit]

/-- C10: the yarn/npm branching is a non-yarn fallback: for every
package manager other than `"yarn"`, `configUpdate` sets
`beforeDevCommand` to `"npm run start"` and `beforeBuildCommand` to
`"npm run build"`, while `postInit` includes the script-registration
block and the `"-- "` separator exactly when the package manager is
`"npm"` (the `""` components below mark the omitted optional
fragments). -/
theorem configUpdate_nonYarn_fallback (cfg : Config) (pm : String)
    (h : pm ≠ "yarn") :
    configUpdate cfg pm "beforeDevCommand" = some "npm run start"
    ∧ configUpdate cfg pm "beforeBuildCommand" = some "npm run build"
    ∧ (pm ≠ "npm" → postInitOutput cfg pm =
        "\nchange directory:\n  $ cd " ++ appNameStr cfg ++ "\n"
          ++ ""
          ++ "\ninstall dependencies:\n  $ " ++ pm ++ " install"
          ++ "\n\nrun the app:\n  $ " ++ "npm run" ++ " tauri " ++ ""
          ++ "dev\n            ")
    ∧ (pm = "npm" → postInitOutput cfg pm =
        "\nchange directory:\n  $ cd " ++ appNameStr cfg ++ "\n"
          ++ "\nset tauri script once\n  $ npm set-script tauri tauri\n    "
          ++ "\ninstall dependencies:\n  $ " ++ pm ++ " install"
          ++ "\n\nrun the app:\n  $ " ++ "npm run" ++ " tauri " ++ "-- "
          ++ "dev\n            ") := by
  refine ⟨?_, ?_, ?_, ?_⟩
  · simp [configUpdate, h]
  · simp [configUpdate, h]
  · intro hn
    simp [postInitOutput, setApp, h, hn]
  · intro hn
    simp [postInitOutput, setApp, h, hn]

/-- Witness for C10 at the concrete non-yarn, non-npm package manager
`"pnpm"`. -/
theorem configUpdate_nonYarn_fallback_witness :
    configUpdate sampleCfg "pnpm" "beforeDevCommand" = some "npm run start" :=
  (configUpdate_nonYarn_fallback sampleCfg "pnpm" (by decide)).1

end Vanilla
